import Mathlib

/-!
# Character: hierarchical transforms and swing animation

A shallow embedding of `Character.h`, `Character.cpp` and the parts of `main.cpp`
that create, draw and steer the two characters.

Number model: the C++ `float` and `double` values are idealised as real numbers, so
`sin`, `cos` and `sqrt` are the real functions and no rounding takes place.  The
GLM functions (`translate`, `rotate`, `scale`, `radians`, `normalize`) follow the
GLM implementation: a `mat4` is column-major, `m[i]` is column `i`.

Effects: `drawPart` records the arguments of its draw call; the GLFW timer is a
stream of readings and every `glfwGetTime()` consumes the next one.
-/

noncomputable section

namespace glm

/-- A `glm::vec3`. -/
@[ext]
structure vec3 where
  x : ℝ
  y : ℝ
  z : ℝ

/-- A `glm::vec4`. -/
@[ext]
structure vec4 where
  x : ℝ
  y : ℝ
  z : ℝ
  w : ℝ

/-- A `glm::mat4`, stored by columns: `c0 .. c3` are `m[0] .. m[3]`. -/
@[ext]
structure mat4 where
  c0 : vec4
  c1 : vec4
  c2 : vec4
  c3 : vec4

/-- The `vec3 + vec3` operator. -/
def vec3.add (a b : vec3) : vec3 := ⟨a.x + b.x, a.y + b.y, a.z + b.z⟩

/-- The `vec3 * scalar` operator. -/
def vec3.smul (v : vec3) (k : ℝ) : vec3 := ⟨v.x * k, v.y * k, v.z * k⟩

/-- The `vec4 + vec4` operator. -/
def vec4.add (a b : vec4) : vec4 := ⟨a.x + b.x, a.y + b.y, a.z + b.z, a.w + b.w⟩

/-- The `vec4 * scalar` operator. -/
def vec4.smul (v : vec4) (k : ℝ) : vec4 := ⟨v.x * k, v.y * k, v.z * k, v.w * k⟩

/-- The constructor `glm::vec4(v, w)`. -/
def vec4.ofVec3 (v : vec3) (w : ℝ) : vec4 := ⟨v.x, v.y, v.z, w⟩

/-- The first three components of a `vec4`. -/
def vec4.xyz (v : vec4) : vec3 := ⟨v.x, v.y, v.z⟩

/-- The constructor `glm::mat4(1.0f)`: the identity matrix. -/
def mat4.identity : mat4 :=
  { c0 := ⟨1, 0, 0, 0⟩
    c1 := ⟨0, 1, 0, 0⟩
    c2 := ⟨0, 0, 1, 0⟩
    c3 := ⟨0, 0, 0, 1⟩ }

/-- The `mat4 * vec4` operator. -/
def mat4.mulVec (m : mat4) (v : vec4) : vec4 :=
  (((m.c0.smul v.x).add (m.c1.smul v.y)).add (m.c2.smul v.z)).add (m.c3.smul v.w)

/-- The `mat4 * mat4` operator: column `i` of the product is `m1 * m2[i]`. -/
def mat4.mul (m1 m2 : mat4) : mat4 :=
  { c0 := m1.mulVec m2.c0
    c1 := m1.mulVec m2.c1
    c2 := m1.mulVec m2.c2
    c3 := m1.mulVec m2.c3 }

/-- The function `glm::dot` on `vec3`. -/
def dot (a b : vec3) : ℝ := a.x * b.x + a.y * b.y + a.z * b.z

/-- The function `glm::inversesqrt`. -/
def inversesqrt (x : ℝ) : ℝ := 1 / Real.sqrt x

/-- The function `glm::normalize`: `v * inversesqrt(dot(v, v))`. -/
def normalize (v : vec3) : vec3 := v.smul (inversesqrt (dot v v))

/-- The function `glm::radians`: degrees times the constant GLM uses for pi / 180. -/
def radians (degrees : ℝ) : ℝ := degrees * 0.01745329251994329576923690768489

/-- The function `glm::translate(m, v)`: only the last column changes. -/
def translate (m : mat4) (v : vec3) : mat4 :=
  { c0 := m.c0
    c1 := m.c1
    c2 := m.c2
    c3 := (((m.c0.smul v.x).add (m.c1.smul v.y)).add (m.c2.smul v.z)).add m.c3 }

/-- The function `glm::scale(m, v)`: the first three columns are scaled. -/
def scale (m : mat4) (v : vec3) : mat4 :=
  { c0 := m.c0.smul v.x
    c1 := m.c1.smul v.y
    c2 := m.c2.smul v.z
    c3 := m.c3 }

/-- The function `glm::rotate(m, angle, v)`: `m` times the rotation by `angle`
(radians) about the normalised axis `v`. -/
def rotate (m : mat4) (angle : ℝ) (v : vec3) : mat4 :=
  let a := angle
  let c := Real.cos a
  let s := Real.sin a
  let axis := normalize v
  let temp := axis.smul (1 - c)
  let r00 := c + temp.x * axis.x
  let r01 := temp.x * axis.y + s * axis.z
  let r02 := temp.x * axis.z - s * axis.y
  let r10 := temp.y * axis.x - s * axis.z
  let r11 := c + temp.y * axis.y
  let r12 := temp.y * axis.z + s * axis.x
  let r20 := temp.z * axis.x + s * axis.y
  let r21 := temp.z * axis.y - s * axis.x
  let r22 := c + temp.z * axis.z
  { c0 := ((m.c0.smul r00).add (m.c1.smul r01)).add (m.c2.smul r02)
    c1 := ((m.c0.smul r10).add (m.c1.smul r11)).add (m.c2.smul r12)
    c2 := ((m.c0.smul r20).add (m.c1.smul r21)).add (m.c2.smul r22)
    c3 := m.c3 }

end glm

open glm

/-- The struct `TransformParams` of `Character.h`. -/
structure TransformParams where
  position : vec3
  rotation : vec3
  scale : vec3

/-- The data members of class `Character`. -/
structure Character where
  rootTransform : TransformParams
  armSwing : ℝ
  legSwing : ℝ
  swingSpeed : ℝ
  headOffset : vec3
  leftArmOffset : vec3
  rightArmOffset : vec3
  leftLegOffset : vec3
  rightLegOffset : vec3

/-- One call of `drawPart`: the arguments it hands to the GL draw call. -/
structure DrawCall where
  shaderProgram : ℕ
  VAO : ℕ
  model : mat4
  view : mat4
  projection : mat4
  color : vec3

/-- The GLFW timer, as the stream of values that the coming calls of
`glfwGetTime()` return. -/
structure Clock where
  readings : ℕ → ℝ

/-- The function `glfwGetTime()`: the next reading, and the timer after it. -/
def glfwGetTime (clock : Clock) : ℝ × Clock :=
  (clock.readings 0, ⟨fun n => clock.readings (n + 1)⟩)

/-- A timer never runs backwards. -/
def Clock.Monotone (clock : Clock) : Prop :=
  ∀ n, clock.readings n ≤ clock.readings (n + 1)

namespace Character

/-- The constructor `Character::Character()`.  It initialises the five offsets and
the three animation variables; `rootTransform` is not in its initialiser list, so
the value the storage holds beforehand is a parameter. -/
def init (rootTransform : TransformParams) : Character :=
  { rootTransform := rootTransform
    headOffset := ⟨0.0, 1.0, 0.0⟩
    leftArmOffset := ⟨-0.6, 0.0, 0.0⟩
    rightArmOffset := ⟨0.6, 0.0, 0.0⟩
    leftLegOffset := ⟨-0.3, -1.0, 0.0⟩
    rightLegOffset := ⟨0.3, -1.0, 0.0⟩
    armSwing := 0.0
    legSwing := 0.0
    swingSpeed := 7.0 }

/-- The setter `setPosition`. -/
def setPosition (c : Character) (pos : vec3) : Character :=
  { c with rootTransform := { c.rootTransform with position := pos } }

/-- The getter `getPosition`. -/
def getPosition (c : Character) : vec3 := c.rootTransform.position

/-- The setter `setRotation`. -/
def setRotation (c : Character) (rot : vec3) : Character :=
  { c with rootTransform := { c.rootTransform with rotation := rot } }

/-- The getter `getRotation`. -/
def getRotation (c : Character) : vec3 := c.rootTransform.rotation

/-- The setter `setScale`. -/
def setScale (c : Character) (sc : vec3) : Character :=
  { c with rootTransform := { c.rootTransform with scale := sc } }

/-- The getter `getScale`. -/
def getScale (c : Character) : vec3 := c.rootTransform.scale

/-- The method `drawPart`: it changes no member and issues one draw call with its
arguments. -/
def drawPart (shaderProgram VAO : ℕ) (model view projection : mat4) (color : vec3) :
    DrawCall :=
  { shaderProgram := shaderProgram
    VAO := VAO
    model := model
    view := view
    projection := projection
    color := color }

/-- The local `rootMatrix` of `drawCharacter`. -/
def rootMatrix (scale rotation position : vec3) : mat4 :=
  let rootMatrix := mat4.identity
  let rootMatrix := glm.translate rootMatrix position
  let rootMatrix := glm.rotate rootMatrix rotation.y ⟨0.0, 1.0, 0.0⟩
  let rootMatrix := glm.scale rootMatrix scale
  rootMatrix

/-- The local `torsoMatrix` of `drawCharacter`. -/
def torsoMatrix (rootMatrix : mat4) : mat4 :=
  let torsoMatrix := rootMatrix
  let torsoMatrix := glm.scale torsoMatrix ⟨0.8, 1.5, 0.5⟩
  torsoMatrix

/-- The local `headMatrix` of `drawCharacter`. -/
def headMatrix (c : Character) (rootMatrix : mat4) : mat4 :=
  let headMatrix := rootMatrix
  let headMatrix := glm.translate headMatrix c.headOffset
  let headMatrix := glm.scale headMatrix ⟨0.3, 0.4, 0.3⟩
  headMatrix

/-- The local `leftArmMatrix` of `drawCharacter`. -/
def leftArmMatrix (c : Character) (rootMatrix : mat4) : mat4 :=
  let leftArmMatrix := rootMatrix
  let leftArmMatrix := glm.translate leftArmMatrix c.leftArmOffset
  let leftArmMatrix := glm.translate leftArmMatrix ⟨0.0, 0.75, 0.0⟩
  let leftArmMatrix := glm.rotate leftArmMatrix (radians c.armSwing) ⟨1.0, 0.0, 0.0⟩
  let leftArmMatrix := glm.translate leftArmMatrix ⟨0.0, -0.75, 0.0⟩
  let leftArmMatrix := glm.scale leftArmMatrix ⟨0.2, 1.5, 0.2⟩
  leftArmMatrix

/-- The local `rightArmMatrix` of `drawCharacter`. -/
def rightArmMatrix (c : Character) (rootMatrix : mat4) : mat4 :=
  let rightArmMatrix := rootMatrix
  let rightArmMatrix := glm.translate rightArmMatrix c.rightArmOffset
  let rightArmMatrix := glm.translate rightArmMatrix ⟨0.0, 0.75, 0.0⟩
  let rightArmMatrix := glm.rotate rightArmMatrix (radians (-c.armSwing)) ⟨1.0, 0.0, 0.0⟩
  let rightArmMatrix := glm.translate rightArmMatrix ⟨0.0, -0.75, 0.0⟩
  let rightArmMatrix := glm.scale rightArmMatrix ⟨0.2, 1.5, 0.2⟩
  rightArmMatrix

/-- The local `leftLegMatrix` of `drawCharacter`. -/
def leftLegMatrix (c : Character) (rootMatrix : mat4) : mat4 :=
  let leftLegMatrix := rootMatrix
  let leftLegMatrix := glm.translate leftLegMatrix c.leftLegOffset
  let leftLegMatrix := glm.translate leftLegMatrix ⟨0.0, 0.75, 0.0⟩
  let leftLegMatrix := glm.rotate leftLegMatrix (radians c.legSwing) ⟨1.0, 0.0, 0.0⟩
  let leftLegMatrix := glm.translate leftLegMatrix ⟨0.0, -0.75, 0.0⟩
  let leftLegMatrix := glm.scale leftLegMatrix ⟨0.3, 1.5, 0.3⟩
  leftLegMatrix

/-- The local `rightLegMatrix` of `drawCharacter`. -/
def rightLegMatrix (c : Character) (rootMatrix : mat4) : mat4 :=
  let rightLegMatrix := rootMatrix
  let rightLegMatrix := glm.translate rightLegMatrix c.rightLegOffset
  let rightLegMatrix := glm.translate rightLegMatrix ⟨0.0, 0.75, 0.0⟩
  let rightLegMatrix := glm.rotate rightLegMatrix (radians (-c.legSwing)) ⟨1.0, 0.0, 0.0⟩
  let rightLegMatrix := glm.translate rightLegMatrix ⟨0.0, -0.75, 0.0⟩
  let rightLegMatrix := glm.scale rightLegMatrix ⟨0.3, 1.5, 0.3⟩
  rightLegMatrix

/-- The method `drawCharacter`: the character afterwards (the method assigns no
member) and the `drawPart` calls it makes, in order. -/
def drawCharacter (c : Character) (shaderProgram headVAO torsoVAO armVAO legVAO : ℕ)
    (view projection : mat4) (scale rotation position : vec3) :
    Character × List DrawCall :=
  let rootMatrix := rootMatrix scale rotation position
  (c,
   [ drawPart shaderProgram torsoVAO (torsoMatrix rootMatrix) view projection
       ⟨0.0, 0.0, 1.0⟩,
     drawPart shaderProgram headVAO (headMatrix c rootMatrix) view projection
       ⟨1.0, 0.8, 0.6⟩,
     drawPart shaderProgram armVAO (leftArmMatrix c rootMatrix) view projection
       ⟨1.0, 0.8, 0.6⟩,
     drawPart shaderProgram armVAO (rightArmMatrix c rootMatrix) view projection
       ⟨1.0, 0.8, 0.6⟩,
     drawPart shaderProgram legVAO (leftLegMatrix c rootMatrix) view projection
       ⟨0.0, 0.0, 0.0⟩,
     drawPart shaderProgram legVAO (rightLegMatrix c rootMatrix) view projection
       ⟨0.0, 0.0, 0.0⟩ ])

/-- The method `updateSwing`.  The moving branch calls `glfwGetTime()` once for
`armSwing` and once more for `legSwing`; the other branch does not read the timer. -/
def updateSwing (c : Character) (deltaTime : ℝ) (isMoving : Bool) (clock : Clock) :
    Character × Clock :=
  if isMoving then
    let r1 := glfwGetTime clock
    let c1 := { c with armSwing := 45.0 * Real.sin (r1.1 * c.swingSpeed) }
    let r2 := glfwGetTime r1.2
    let c2 := { c1 with legSwing := 30.0 * Real.sin (r2.1 * c1.swingSpeed) }
    (c2, r2.2)
  else
    let c1 := { c with armSwing := 0.0 }
    let c2 := { c1 with legSwing := 0.0 }
    (c2, clock)

end Character

/-- The value of a zero-initialised `TransformParams` (static storage). -/
def TransformParams.zero : TransformParams := ⟨⟨0, 0, 0⟩, ⟨0, 0, 0⟩, ⟨0, 0, 0⟩⟩

/-- The timer whose next reading is `t` and which then goes on as `clock`. -/
def Clock.cons (t : ℝ) (clock : Clock) : Clock :=
  ⟨fun n => match n with
    | 0 => t
    | k + 1 => clock.readings k⟩

/-- A timer that starts at 0 and advances by one microsecond between two readings. -/
def microsecondClock : Clock := ⟨fun n => (n : ℝ) / 1000000⟩

/-- The states a `Character` object can be in: the constructor's result, and what
the public methods make of such a state. -/
inductive Character.Reachable : Character → Prop
  | init (rootTransform : TransformParams) : Reachable (Character.init rootTransform)
  | setPosition (c : Character) (pos : vec3) :
      Reachable c → Reachable (c.setPosition pos)
  | setRotation (c : Character) (rot : vec3) :
      Reachable c → Reachable (c.setRotation rot)
  | setScale (c : Character) (sc : vec3) :
      Reachable c → Reachable (c.setScale sc)
  | updateSwing (c : Character) (deltaTime : ℝ) (isMoving : Bool) (clock : Clock) :
      Reachable c → Reachable (c.updateSwing deltaTime isMoving clock).1
  | drawCharacter (c : Character) (shaderProgram headVAO torsoVAO armVAO legVAO : ℕ)
      (view projection : mat4) (scale rotation position : vec3) :
      Reachable c →
      Reachable (c.drawCharacter shaderProgram headVAO torsoVAO armVAO legVAO view
        projection scale rotation position).1

/-- The global instances `character` and `scaledCharacter` of `main.cpp`. -/
structure Scene where
  character : Character
  scaledCharacter : Character

/-- The two globals as constructed before `main` runs. -/
def Scene.globals : Scene :=
  { character := Character.init TransformParams.zero
    scaledCharacter := Character.init TransformParams.zero }

/-- The initialisation of the two characters in `main`. -/
def Scene.mainInit (s : Scene) : Scene :=
  let character := s.character.setPosition ⟨0.0, 1.0, 0.0⟩
  let character := character.setRotation ⟨0.0, 0.0, 0.0⟩
  let character := character.setScale ⟨1.0, 1.0, 1.0⟩
  let scaledCharacter := s.scaledCharacter.setPosition ⟨5.0, 1.0, 0.0⟩
  let scaledCharacter := scaledCharacter.setRotation ⟨45.0, 45.0, 45.0⟩
  { character := character, scaledCharacter := scaledCharacter }

/-- The two `drawCharacter` calls of the rendering loop in `main`: the scene
afterwards and the twelve `drawPart` calls, those of `character` first. -/
def Scene.drawCharacters (s : Scene) (shaderProgram headVAO torsoVAO armVAO legVAO : ℕ)
    (view projection : mat4) : Scene × List DrawCall :=
  let r1 := s.character.drawCharacter shaderProgram headVAO torsoVAO armVAO legVAO view
    projection ⟨1.0, 1.0, 1.0⟩ s.character.getRotation s.character.getPosition
  let r2 := s.scaledCharacter.drawCharacter shaderProgram headVAO torsoVAO armVAO legVAO
    view projection ⟨1.5, 1.5, 1.5⟩ s.scaledCharacter.getRotation
    s.scaledCharacter.getPosition
  ({ character := r1.1, scaledCharacter := r2.1 }, r1.2 ++ r2.2)

/-- A call of one of the public methods of `Character`, with its arguments. -/
inductive Character.Op where
  | setPosition (pos : vec3)
  | setRotation (rot : vec3)
  | setScale (sc : vec3)
  | updateSwing (deltaTime : ℝ) (isMoving : Bool)
  | drawCharacter (shaderProgram headVAO torsoVAO armVAO legVAO : ℕ)
      (view projection : mat4) (scale rotation position : vec3)

/-- The effect of a method call on the object it is called on and on the timer. -/
def Character.perform (c : Character) (op : Character.Op) (clock : Clock) :
    Character × Clock :=
  match op with
  | .setPosition pos => (c.setPosition pos, clock)
  | .setRotation rot => (c.setRotation rot, clock)
  | .setScale sc => (c.setScale sc, clock)
  | .updateSwing deltaTime isMoving => c.updateSwing deltaTime isMoving clock
  | .drawCharacter shaderProgram headVAO torsoVAO armVAO legVAO view projection scale
      rotation position =>
    ((c.drawCharacter shaderProgram headVAO torsoVAO armVAO legVAO view projection scale
      rotation position).1, clock)

/-- A method call on the global `character`. -/
def Scene.onCharacter (s : Scene) (op : Character.Op) (clock : Clock) : Scene × Clock :=
  let r := s.character.perform op clock
  ({ s with character := r.1 }, r.2)

/-- A method call on the global `scaledCharacter`. -/
def Scene.onScaledCharacter (s : Scene) (op : Character.Op) (clock : Clock) :
    Scene × Clock :=
  let r := s.scaledCharacter.perform op clock
  ({ s with scaledCharacter := r.1 }, r.2)

/-- A run of `updateSwing` calls on one character; each call comes with its
`deltaTime`, its `isMoving` flag and the timer as it stands when the call is made. -/
def Character.updateSwings (c : Character) (calls : List (ℝ × Bool × Clock)) : Character :=
  match calls with
  | [] => c
  | call :: rest =>
    Character.updateSwings (c.updateSwing call.1 call.2.1 call.2.2).1 rest

namespace glm

/-- The `scalar * vec3` operator. -/
def vec3.scalarMul (k : ℝ) (v : vec3) : vec3 := ⟨k * v.x, k * v.y, k * v.z⟩

/-- The `vec3 - vec3` operator. -/
def vec3.sub (a b : vec3) : vec3 := ⟨a.x - b.x, a.y - b.y, a.z - b.z⟩

/-- The function `glm::min(x, y)`: `(y < x) ? y : x`. -/
def min (x y : ℝ) : ℝ := if y < x then y else x

/-- The function `glm::max(x, y)`: `(x < y) ? y : x`. -/
def max (x y : ℝ) : ℝ := if x < y then y else x

/-- The function `glm::clamp(x, minVal, maxVal)`: `min(max(x, minVal), maxVal)`. -/
def clamp (x minVal maxVal : ℝ) : ℝ := glm.min (glm.max x minVal) maxVal

end glm

/-- The global `characterSpeed` of `main.cpp`. -/
def characterSpeed : ℝ := 0.009

/-- The global `characterRotationSpeed` of `main.cpp`. -/
def characterRotationSpeed : ℝ := 0.05

/-- The keys `processInput` asks `glfwGetKey` about: `true` is `GLFW_PRESS`. -/
structure Keys where
  KEY_ESCAPE : Bool
  KEY_W : Bool
  KEY_S : Bool
  KEY_A : Bool
  KEY_D : Bool
  KEY_LEFT : Bool
  KEY_RIGHT : Bool

/-- What `processInput` reads and writes: the two global characters, the timer, the
static local `lastFrame` and the close flag of the window. -/
structure World where
  scene : Scene
  clock : Clock
  lastFrame : ℝ
  windowShouldClose : Bool

/-- The function `processInput` of `main.cpp`: the world afterwards, and the
arguments `(deltaTime, isMoving)` of the `updateSwing` call it ends with.  The pairs
`m1 .. m4` are `(currentPos, isMoving)` after each of the four movement keys. -/
def processInput (w : World) (keys : Keys) : World × (ℝ × Bool) :=
  let windowShouldClose := if keys.KEY_ESCAPE then true else w.windowShouldClose
  let currentPos := w.scene.character.getPosition
  let currentRot := w.scene.character.getRotation
  let forwardX := Real.sin currentRot.y
  let forwardZ := Real.cos currentRot.y
  let forward : vec3 := ⟨forwardX, 0.0, forwardZ⟩
  let right : vec3 := ⟨forwardZ, 0.0, -forwardX⟩
  let isMoving := false
  let m1 := if keys.KEY_W then
      (currentPos.add (vec3.scalarMul characterSpeed forward), true)
    else (currentPos, isMoving)
  let m2 := if keys.KEY_S then
      (m1.1.sub (vec3.scalarMul characterSpeed forward), true)
    else m1
  let m3 := if keys.KEY_A then
      (m2.1.add (vec3.scalarMul characterSpeed right), true)
    else m2
  let m4 := if keys.KEY_D then
      (m3.1.sub (vec3.scalarMul characterSpeed right), true)
    else m3
  let currentPos := m4.1
  let isMoving := m4.2
  let currentRot := if keys.KEY_LEFT then
      { currentRot with y := currentRot.y + characterRotationSpeed }
    else currentRot
  let currentRot := if keys.KEY_RIGHT then
      { currentRot with y := currentRot.y - characterRotationSpeed }
    else currentRot
  let bounds := 9.0
  let currentPos := { currentPos with x := glm.clamp currentPos.x (-bounds) bounds }
  let currentPos := { currentPos with z := glm.clamp currentPos.z (-bounds) bounds }
  let character := w.scene.character.setPosition currentPos
  let character := character.setRotation currentRot
  let r := glfwGetTime w.clock
  let currentFrame := r.1
  let deltaTime := currentFrame - w.lastFrame
  let lastFrame := currentFrame
  let u := character.updateSwing deltaTime isMoving r.2
  ({ scene := { w.scene with character := u.1 }
     clock := u.2
     lastFrame := lastFrame
     windowShouldClose := windowShouldClose },
   (deltaTime, isMoving))

/-! ## Spec-side vocabulary used in the statements -/

namespace glm

/-- A `glm::mat3`, stored by columns. -/
@[ext]
structure mat3 where
  c0 : vec3
  c1 : vec3
  c2 : vec3

/-- The conversion `glm::mat3(m)`: the upper-left 3x3 (linear) part of a `mat4`. -/
def mat4.toMat3 (m : mat4) : mat3 := ⟨m.c0.xyz, m.c1.xyz, m.c2.xyz⟩

/-- The `mat3 * scalar` operator. -/
def mat3.smul (m : mat3) (k : ℝ) : mat3 := ⟨m.c0.smul k, m.c1.smul k, m.c2.smul k⟩

/-- The component-wise `vec3 * vec3` operator. -/
def vec3.mul (a b : vec3) : vec3 := ⟨a.x * b.x, a.y * b.y, a.z * b.z⟩

/-- The rotation `Ry(angle)` of a point about the world Y axis. -/
def rotateY (angle : ℝ) (v : vec3) : vec3 :=
  ⟨Real.cos angle * v.x + Real.sin angle * v.z, v.y,
   -(Real.sin angle) * v.x + Real.cos angle * v.z⟩

/-- The matrix `Translate(v)`. -/
def Translate (v : vec3) : mat4 := translate mat4.identity v

/-- The matrix `RotateY(angle)`. -/
def RotateY (angle : ℝ) : mat4 := rotate mat4.identity angle ⟨0.0, 1.0, 0.0⟩

/-- The matrix `Scale(v)`. -/
def Scale (v : vec3) : mat4 := scale mat4.identity v

/-- The limb composition of the spec: from the root matrix, translate by the limb
offset, translate by (0, 0.75, 0), rotate by `angle` radians about the local X axis,
translate by (0, -0.75, 0), scale by the proportions. -/
def limbMatrix (rootMatrix : mat4) (offset : vec3) (angle : ℝ) (proportions : vec3) :
    mat4 :=
  scale
    (translate
      (rotate (translate (translate rootMatrix offset) ⟨0.0, 0.75, 0.0⟩) angle
        ⟨1.0, 0.0, 0.0⟩)
      ⟨0.0, -0.75, 0.0⟩)
    proportions

theorem normalize_axisY : normalize ⟨0.0, 1.0, 0.0⟩ = ⟨0, 1, 0⟩ := by
  simp [normalize, dot, inversesqrt, vec3.smul]
  norm_num

theorem normalize_axisX : normalize ⟨1.0, 0.0, 0.0⟩ = ⟨1, 0, 0⟩ := by
  simp [normalize, dot, inversesqrt, vec3.smul]
  norm_num

theorem sin_45_ne_zero : Real.sin 45 ≠ 0 := by
  intro h
  obtain ⟨n, hn⟩ := Real.sin_eq_zero_iff.mp h
  have hpi3 := Real.pi_gt_three
  have hpi315 := Real.pi_lt_d2
  rcases le_or_lt n 14 with h14 | h15
  · have h1 : (n : ℝ) ≤ 14 := by exact_mod_cast h14
    nlinarith
  · have h1 : (15 : ℝ) ≤ n := by exact_mod_cast h15
    nlinarith

end glm

namespace Character

/-- The five offsets of a reachable character are the constructor's constants. -/
theorem Reachable.offsets {c : Character} (h : Reachable c) :
    c.headOffset = ⟨0, 1, 0⟩ ∧ c.leftArmOffset = ⟨-0.6, 0, 0⟩
    ∧ c.rightArmOffset = ⟨0.6, 0, 0⟩ ∧ c.leftLegOffset = ⟨-0.3, -1, 0⟩
    ∧ c.rightLegOffset = ⟨0.3, -1, 0⟩ := by
  induction h with
  | init rootTransform =>
    simp only [Character.init]
    norm_num
  | setPosition c pos _ ih => exact ih
  | setRotation c rot _ ih => exact ih
  | setScale c sc _ ih => exact ih
  | updateSwing c deltaTime isMoving clock _ ih =>
    cases isMoving <;> exact ih
  | drawCharacter c _ _ _ _ _ _ _ _ _ _ _ ih => exact ih

/-- C1. Pivot invariance: in every `drawCharacter` call, whatever the root pose and
whatever the swing angles `a` and `l`, the model matrices of the left arm, right
arm, left leg and right leg send the mesh point (0, 0.5, 0) at the top of the limb
to `rootMatrix * (limbOffset + (0, 0.75, 0), 1)`, a point in which the swing angles
do not occur; the scale and back-translation alone send that mesh point to the
rotation origin. -/
theorem drawCharacter_limb_pivot_invariant (c : Character) (a l : ℝ)
    (shaderProgram headVAO torsoVAO armVAO legVAO : ℕ) (view projection : mat4)
    (scale rotation position : vec3) :
    (((drawCharacter { c with armSwing := a, legSwing := l } shaderProgram headVAO
          torsoVAO armVAO legVAO view projection scale rotation position).2.drop 2).map
        (fun d => d.model.mulVec ⟨0, 0.5, 0, 1⟩)
      = [ (rootMatrix scale rotation position).mulVec
            (vec4.ofVec3 (c.leftArmOffset.add ⟨0, 0.75, 0⟩) 1),
          (rootMatrix scale rotation position).mulVec
            (vec4.ofVec3 (c.rightArmOffset.add ⟨0, 0.75, 0⟩) 1),
          (rootMatrix scale rotation position).mulVec
            (vec4.ofVec3 (c.leftLegOffset.add ⟨0, 0.75, 0⟩) 1),
          (rootMatrix scale rotation position).mulVec
            (vec4.ofVec3 (c.rightLegOffset.add ⟨0, 0.75, 0⟩) 1) ])
    ∧ (glm.scale (glm.translate mat4.identity ⟨0, -0.75, 0⟩) ⟨0.2, 1.5, 0.2⟩).mulVec
          ⟨0, 0.5, 0, 1⟩ = ⟨0, 0, 0, 1⟩
    ∧ (glm.scale (glm.translate mat4.identity ⟨0, -0.75, 0⟩) ⟨0.3, 1.5, 0.3⟩).mulVec
          ⟨0, 0.5, 0, 1⟩ = ⟨0, 0, 0, 1⟩ := by
  refine ⟨?_, ?_, ?_⟩
  · simp only [drawCharacter, drawPart, leftArmMatrix, rightArmMatrix, leftLegMatrix,
      rightLegMatrix, glm.rotate, normalize_axisX, List.drop, List.map, List.cons.injEq,
      and_true]
    refine ⟨?_, ?_, ?_, ?_⟩ <;>
    · simp only [glm.translate, glm.scale, mat4.mulVec, vec4.add, vec4.smul, vec3.add,
        vec3.smul, vec4.ofVec3]
      ext <;> norm_num <;> ring
  · simp only [glm.translate, glm.scale, mat4.mulVec, vec4.add, vec4.smul, mat4.identity]
    ext <;> norm_num
  · simp only [glm.translate, glm.scale, mat4.mulVec, vec4.add, vec4.smul, mat4.identity]
    ext <;> norm_num

/-- C2. The root matrix is `Translate(position) * RotateY(rotation.y) * Scale(scale)`;
it sends every root-local point `v` to `position + Ry(rotation.y) (scale * v)` with
the component-wise product; and the whole result of `drawCharacter`, so each of the
six part transforms, is the same for two rotation arguments that share the y
component, whatever their x and z components. -/
theorem rootMatrix_eq_translate_rotateY_scale (c : Character)
    (shaderProgram headVAO torsoVAO armVAO legVAO : ℕ) (view projection : mat4)
    (scale rotation position : vec3) :
    rootMatrix scale rotation position
        = (Translate position).mul ((RotateY rotation.y).mul (Scale scale))
    ∧ (∀ v : vec3, (rootMatrix scale rotation position).mulVec (vec4.ofVec3 v 1)
        = vec4.ofVec3 (position.add (rotateY rotation.y (scale.mul v))) 1)
    ∧ (∀ rx rz : ℝ,
        drawCharacter c shaderProgram headVAO torsoVAO armVAO legVAO view projection scale
            ⟨rx, rotation.y, rz⟩ position
          = drawCharacter c shaderProgram headVAO torsoVAO armVAO legVAO view projection
              scale rotation position) := by
  refine ⟨?_, ?_, ?_⟩
  · simp only [rootMatrix, Translate, RotateY, Scale, glm.rotate, normalize_axisY,
      glm.translate, glm.scale, mat4.mul, mat4.mulVec, mat4.identity, vec4.add, vec4.smul,
      vec3.smul]
    ext <;> norm_num
  · intro v
    simp only [rootMatrix, glm.rotate, normalize_axisY, glm.translate, glm.scale,
      mat4.mulVec, mat4.identity, vec4.add, vec4.smul, vec3.smul, vec4.ofVec3, vec3.add,
      rotateY, vec3.mul]
    ext <;> norm_num <;> ring
  · intro rx rz
    rfl

/-- C3, as stated, fails: on the constructed character and a timer that advances by
one microsecond between two readings, `updateSwing(0, true)` leaves `armSwing = 0`
and `legSwing > 0`, so no single time `t` gives both
`armSwing = 45 * sin(t * swingSpeed)` and `legSwing = 30 * sin(t * swingSpeed)`. -/
theorem updateSwing_single_time_counterexample :
    microsecondClock.Monotone
    ∧ ¬ ∃ t : ℝ,
        (updateSwing (init TransformParams.zero) 0 true microsecondClock).1.armSwing
            = 45 * Real.sin (t * (init TransformParams.zero).swingSpeed)
        ∧ (updateSwing (init TransformParams.zero) 0 true microsecondClock).1.legSwing
            = 30 * Real.sin (t * (init TransformParams.zero).swingSpeed) := by
  constructor
  · intro n
    simp only [microsecondClock]
    push_cast
    linarith
  · rintro ⟨t, h1, h2⟩
    simp only [updateSwing, glfwGetTime, microsecondClock, init, if_true] at h1 h2
    norm_num at h1 h2
    have hpos : 0 < Real.sin (7 / 1000000) :=
      Real.sin_pos_of_pos_of_lt_pi (by norm_num) (by linarith [Real.pi_gt_three])
    rw [h1] at h2
    linarith

/-- C3, amended. After `updateSwing(deltaTime, true)`, `armSwing` is
`45 * sin(t1 * swingSpeed)` and `legSwing` is `30 * sin(t2 * swingSpeed)`, where
`t1` and `t2` are the first and the second timer value the call reads; when both
readings are the same `t`, both formulas hold for that `t`; the resulting state
depends neither on `deltaTime` nor on the prior swing angles. -/
theorem updateSwing_moving (c : Character) (deltaTime : ℝ) (clock : Clock) :
    (updateSwing c deltaTime true clock).1.armSwing
        = 45 * Real.sin (clock.readings 0 * c.swingSpeed)
    ∧ (updateSwing c deltaTime true clock).1.legSwing
        = 30 * Real.sin (clock.readings 1 * c.swingSpeed)
    ∧ (∀ t : ℝ,
        (updateSwing c deltaTime true (Clock.cons t (Clock.cons t clock))).1.armSwing
            = 45 * Real.sin (t * c.swingSpeed)
        ∧ (updateSwing c deltaTime true (Clock.cons t (Clock.cons t clock))).1.legSwing
            = 30 * Real.sin (t * c.swingSpeed))
    ∧ (∀ deltaTime' : ℝ,
        updateSwing c deltaTime' true clock = updateSwing c deltaTime true clock)
    ∧ (∀ a l : ℝ,
        updateSwing { c with armSwing := a, legSwing := l } deltaTime true clock
          = updateSwing c deltaTime true clock) := by
  refine ⟨?_, ?_, ?_, ?_, ?_⟩
  · simp only [updateSwing, glfwGetTime, if_true]
    norm_num
  · simp only [updateSwing, glfwGetTime, if_true]
    norm_num
  · intro t
    simp only [updateSwing, glfwGetTime, Clock.cons, if_true]
    norm_num
  · intro deltaTime'
    rfl
  · intro a l
    rfl

/-- C4. After `updateSwing(deltaTime, false)`, for every prior state, every
`deltaTime` and every timer, `armSwing` and `legSwing` are both exactly 0; the
timer is not read. -/
theorem updateSwing_not_moving (c : Character) (deltaTime : ℝ) (clock : Clock) :
    (updateSwing c deltaTime false clock).1.armSwing = 0
    ∧ (updateSwing c deltaTime false clock).1.legSwing = 0
    ∧ (updateSwing c deltaTime false clock).2 = clock := by
  refine ⟨?_, ?_, ?_⟩
  · simp only [updateSwing]
    norm_num
  · simp only [updateSwing]
    norm_num
  · simp [updateSwing]

/-- C5. In every `drawCharacter` call the left arm is rotated about X by
`radians(armSwing)` and the right arm by exactly the negated angle, and likewise the
left and right leg with `legSwing`; and the linear part of the right-limb transform
in a state with swing `a` is the linear part of the matching left-limb transform in
a state with swing `-a`. -/
theorem drawCharacter_right_limb_angle_negated (c : Character) (a l : ℝ)
    (shaderProgram headVAO torsoVAO armVAO legVAO : ℕ) (view projection : mat4)
    (scale rotation position : vec3) :
    ((drawCharacter c shaderProgram headVAO torsoVAO armVAO legVAO view projection scale
          rotation position).2.drop 2).map DrawCall.model
      = [ limbMatrix (rootMatrix scale rotation position) c.leftArmOffset
            (radians c.armSwing) ⟨0.2, 1.5, 0.2⟩,
          limbMatrix (rootMatrix scale rotation position) c.rightArmOffset
            (-(radians c.armSwing)) ⟨0.2, 1.5, 0.2⟩,
          limbMatrix (rootMatrix scale rotation position) c.leftLegOffset
            (radians c.legSwing) ⟨0.3, 1.5, 0.3⟩,
          limbMatrix (rootMatrix scale rotation position) c.rightLegOffset
            (-(radians c.legSwing)) ⟨0.3, 1.5, 0.3⟩ ]
    ∧ ((drawCharacter { c with armSwing := a, legSwing := l } shaderProgram headVAO
          torsoVAO armVAO legVAO view projection scale rotation position).2.map
        (fun d => d.model.toMat3))[3]?
      = ((drawCharacter { c with armSwing := -a, legSwing := -l } shaderProgram headVAO
          torsoVAO armVAO legVAO view projection scale rotation position).2.map
        (fun d => d.model.toMat3))[2]?
    ∧ ((drawCharacter { c with armSwing := a, legSwing := l } shaderProgram headVAO
          torsoVAO armVAO legVAO view projection scale rotation position).2.map
        (fun d => d.model.toMat3))[5]?
      = ((drawCharacter { c with armSwing := -a, legSwing := -l } shaderProgram headVAO
          torsoVAO armVAO legVAO view projection scale rotation position).2.map
        (fun d => d.model.toMat3))[4]? := by
  have hneg : ∀ x : ℝ, radians (-x) = -(radians x) := by
    intro x
    simp only [radians]
    ring
  refine ⟨?_, ?_, ?_⟩
  · simp only [drawCharacter, drawPart, leftArmMatrix, rightArmMatrix, leftLegMatrix,
      rightLegMatrix, limbMatrix, hneg, List.drop, List.map]
  · simp [drawCharacter, drawPart, leftArmMatrix, rightArmMatrix, limbMatrix,
      glm.translate, glm.rotate, glm.scale, mat4.toMat3]
  · simp [drawCharacter, drawPart, leftLegMatrix, rightLegMatrix, limbMatrix,
      glm.translate, glm.rotate, glm.scale, mat4.toMat3]

/-- C6. Every `drawCharacter` call makes exactly six `drawPart` calls, in the order
torso, head, left arm, right arm, left leg, right leg, with the torso, head, arm,
arm, leg, leg mesh handle and the colours blue, skin, skin, skin, black, black,
each with the caller's shader program, view and projection; neither the pose nor
the swing state changes the handles, the colours or the order. -/
theorem drawCharacter_six_drawPart_calls (c : Character)
    (shaderProgram headVAO torsoVAO armVAO legVAO : ℕ) (view projection : mat4)
    (scale rotation position : vec3) :
    (drawCharacter c shaderProgram headVAO torsoVAO armVAO legVAO view projection scale
        rotation position).2.length = 6
    ∧ (drawCharacter c shaderProgram headVAO torsoVAO armVAO legVAO view projection scale
        rotation position).2.map (fun d => (d.VAO, d.color))
      = [ (torsoVAO, ⟨0, 0, 1⟩), (headVAO, ⟨1, 0.8, 0.6⟩), (armVAO, ⟨1, 0.8, 0.6⟩),
          (armVAO, ⟨1, 0.8, 0.6⟩), (legVAO, ⟨0, 0, 0⟩), (legVAO, ⟨0, 0, 0⟩) ]
    ∧ (drawCharacter c shaderProgram headVAO torsoVAO armVAO legVAO view projection scale
        rotation position).2.map DrawCall.model
      = [ torsoMatrix (rootMatrix scale rotation position),
          headMatrix c (rootMatrix scale rotation position),
          leftArmMatrix c (rootMatrix scale rotation position),
          rightArmMatrix c (rootMatrix scale rotation position),
          leftLegMatrix c (rootMatrix scale rotation position),
          rightLegMatrix c (rootMatrix scale rotation position) ]
    ∧ (drawCharacter c shaderProgram headVAO torsoVAO armVAO legVAO view projection scale
        rotation position).2.map (fun d => (d.shaderProgram, d.view, d.projection))
      = List.replicate 6 (shaderProgram, view, projection) := by
  refine ⟨rfl, ?_, rfl, rfl⟩
  simp only [drawCharacter, drawPart, List.map]
  norm_num

/-- C7. With position (0,0,0), rotation.y = 0 and scale (1,1,1), the torso transform
handed to `drawPart` is the diagonal matrix diag(0.8, 1.5, 0.5, 1), the pure scale
`Scale(0.8, 1.5, 0.5)`, for every swing state and every rotation.x and rotation.z. -/
theorem drawCharacter_torso_at_origin (c : Character) (rx rz : ℝ)
    (shaderProgram headVAO torsoVAO armVAO legVAO : ℕ) (view projection : mat4) :
    ((drawCharacter c shaderProgram headVAO torsoVAO armVAO legVAO view projection
        ⟨1, 1, 1⟩ ⟨rx, 0, rz⟩ ⟨0, 0, 0⟩).2.map DrawCall.model).head?
      = some ⟨⟨0.8, 0, 0, 0⟩, ⟨0, 1.5, 0, 0⟩, ⟨0, 0, 0.5, 0⟩, ⟨0, 0, 0, 1⟩⟩
    ∧ Scale ⟨0.8, 1.5, 0.5⟩
      = ⟨⟨0.8, 0, 0, 0⟩, ⟨0, 1.5, 0, 0⟩, ⟨0, 0, 0.5, 0⟩, ⟨0, 0, 0, 1⟩⟩ := by
  constructor
  · simp only [drawCharacter, drawPart, torsoMatrix, rootMatrix, List.map, List.head?,
      glm.rotate, normalize_axisY, glm.translate, glm.scale, mat4.identity, vec4.add,
      vec4.smul, vec3.smul, Real.cos_zero, Real.sin_zero, Option.some.injEq]
    ext <;> norm_num
  · simp only [Scale, glm.scale, mat4.identity, vec4.smul]
    ext <;> norm_num

/-- C8. For a reachable character, every root position `p`, rotation (0,0,0) and
scale (1,1,1), the head transform is `Translate(p + (0,1,0)) * Scale(0.3, 0.4, 0.3)`
and its translation column is `p + (0,1,0)`, whatever the swing angles `a` and `l`;
for `p = (0,1,0)` the translation column is (0,2,0). -/
theorem drawCharacter_head_transform (c : Character) (hc : Reachable c) (p : vec3)
    (a l : ℝ) (shaderProgram headVAO torsoVAO armVAO legVAO : ℕ)
    (view projection : mat4) :
    ((drawCharacter { c with armSwing := a, legSwing := l } shaderProgram headVAO
        torsoVAO armVAO legVAO view projection ⟨1, 1, 1⟩ ⟨0, 0, 0⟩ p).2.map
      DrawCall.model)[1]?
      = some ((Translate (p.add ⟨0, 1, 0⟩)).mul (Scale ⟨0.3, 0.4, 0.3⟩))
    ∧ ((drawCharacter { c with armSwing := a, legSwing := l } shaderProgram headVAO
        torsoVAO armVAO legVAO view projection ⟨1, 1, 1⟩ ⟨0, 0, 0⟩ p).2.map
      (fun d => d.model.c3))[1]?
      = some (vec4.ofVec3 (p.add ⟨0, 1, 0⟩) 1)
    ∧ ((drawCharacter { c with armSwing := a, legSwing := l } shaderProgram headVAO
        torsoVAO armVAO legVAO view projection ⟨1, 1, 1⟩ ⟨0, 0, 0⟩ ⟨0, 1, 0⟩).2.map
      (fun d => d.model.c3))[1]?
      = some ⟨0, 2, 0, 1⟩ := by
  have hhead : c.headOffset = ⟨0, 1, 0⟩ := hc.offsets.1
  refine ⟨?_, ?_, ?_⟩
  · simp only [drawCharacter, drawPart, headMatrix, rootMatrix, List.map, hhead,
      List.getElem?_cons_succ, List.getElem?_cons_zero, Translate, Scale, mat4.mul,
      mat4.mulVec, glm.rotate, normalize_axisY, glm.translate, glm.scale, mat4.identity,
      vec4.add, vec4.smul, vec3.smul, vec3.add, Real.cos_zero, Real.sin_zero,
      Option.some.injEq]
    ext <;> norm_num
    all_goals ring
  · simp only [drawCharacter, drawPart, headMatrix, rootMatrix, List.map, hhead,
      List.getElem?_cons_succ, List.getElem?_cons_zero, vec4.ofVec3,
      glm.rotate, normalize_axisY, glm.translate, glm.scale, mat4.identity,
      vec4.add, vec4.smul, vec3.smul, vec3.add, Real.cos_zero, Real.sin_zero,
      Option.some.injEq]
    ext <;> norm_num
    all_goals ring
  · simp only [drawCharacter, drawPart, headMatrix, rootMatrix, List.map, hhead,
      List.getElem?_cons_succ, List.getElem?_cons_zero,
      glm.rotate, normalize_axisY, glm.translate, glm.scale, mat4.identity,
      vec4.add, vec4.smul, vec3.smul, vec3.add, Real.cos_zero, Real.sin_zero,
      Option.some.injEq]
    ext <;> norm_num

/-- C8 at the constructed character in rest pose, drawn at (0,1,0): the head
translates to (0,2,0). -/
theorem drawCharacter_head_transform_witness :
    Reachable (init TransformParams.zero)
    ∧ ((drawCharacter { init TransformParams.zero with armSwing := 0, legSwing := 0 } 1 2
          3 4 5 mat4.identity mat4.identity ⟨1, 1, 1⟩ ⟨0, 0, 0⟩ ⟨0, 1, 0⟩).2.map
        (fun d => d.model.c3))[1]?
      = some ⟨0, 2, 0, 1⟩ :=
  ⟨Reachable.init TransformParams.zero,
   (drawCharacter_head_transform (init TransformParams.zero)
      (Reachable.init TransformParams.zero) ⟨0, 1, 0⟩ 0 0 1 2 3 4 5 mat4.identity
      mat4.identity).2.2⟩

end Character

/-- C9, as stated, fails on the two characters of `main`: `character` is drawn with
scale (1,1,1) at (0,1,0) and `scaledCharacter` with scale (1.5,1.5,1.5) at
(0,1,0) + (5,0,0), but with yaw 45 against yaw 0, and the linear part of the second
torso transform is not 1.5 times the linear part of the first. -/
theorem main_torso_scaled_copy_counterexample :
    (Scene.mainInit Scene.globals).scaledCharacter.getPosition
        = (Scene.mainInit Scene.globals).character.getPosition.add ⟨5, 0, 0⟩
    ∧ (((Scene.mainInit Scene.globals).drawCharacters 1 2 3 4 5 mat4.identity
          mat4.identity).2.map (fun d => d.model.toMat3))[6]?
      ≠ (((Scene.mainInit Scene.globals).drawCharacters 1 2 3 4 5 mat4.identity
          mat4.identity).2.map (fun d => d.model.toMat3.smul 1.5))[0]? := by
  constructor
  · simp only [Scene.mainInit, Scene.globals, Character.getPosition,
      Character.setPosition, Character.setRotation, Character.setScale, vec3.add]
    ext <;> norm_num
  · intro h
    simp only [Scene.drawCharacters, Scene.mainInit, Scene.globals,
      Character.drawCharacter, Character.drawPart, Character.torsoMatrix,
      Character.rootMatrix, Character.getPosition, Character.getRotation,
      Character.setPosition, Character.setRotation, Character.setScale, List.map,
      List.cons_append, List.nil_append, List.getElem?_cons_succ,
      List.getElem?_cons_zero, glm.rotate, normalize_axisY, glm.translate, glm.scale,
      mat4.identity, mat4.toMat3, mat3.smul, vec4.xyz, vec4.add, vec4.smul, vec3.smul,
      Option.some.injEq, mat3.mk.injEq, vec3.mk.injEq] at h
    have hz := h.1.2.2
    norm_num at hz
    exact sin_45_ne_zero hz

/-- C9, amended. When the two characters are drawn with the same yaw, the first with
scale (1,1,1) at `p` and the second with scale (1.5,1.5,1.5) at `p + (5,0,0)`, the
linear part of the second torso transform is 1.5 times that of the first and its
translation column is that of the first plus (5,0,0); and in the scene of `main` a
method call on one global leaves the other global, and so the torso transform it
is drawn with, unchanged. -/
theorem torso_scaled_copy (c1 c2 : Character) (p : vec3) (yaw rx1 rz1 rx2 rz2 : ℝ)
    (shaderProgram headVAO torsoVAO armVAO legVAO : ℕ) (view projection : mat4)
    (s : Scene) (op : Character.Op) (clock : Clock) :
    ((c2.drawCharacter shaderProgram headVAO torsoVAO armVAO legVAO view projection
        ⟨1.5, 1.5, 1.5⟩ ⟨rx2, yaw, rz2⟩ (p.add ⟨5, 0, 0⟩)).2.map
      (fun d => d.model.toMat3)).head?
      = ((c1.drawCharacter shaderProgram headVAO torsoVAO armVAO legVAO view projection
        ⟨1, 1, 1⟩ ⟨rx1, yaw, rz1⟩ p).2.map (fun d => d.model.toMat3.smul 1.5)).head?
    ∧ ((c2.drawCharacter shaderProgram headVAO torsoVAO armVAO legVAO view projection
        ⟨1.5, 1.5, 1.5⟩ ⟨rx2, yaw, rz2⟩ (p.add ⟨5, 0, 0⟩)).2.map
      (fun d => d.model.c3)).head?
      = ((c1.drawCharacter shaderProgram headVAO torsoVAO armVAO legVAO view projection
        ⟨1, 1, 1⟩ ⟨rx1, yaw, rz1⟩ p).2.map (fun d => d.model.c3.add ⟨5, 0, 0, 0⟩)).head?
    ∧ (s.onCharacter op clock).1.scaledCharacter = s.scaledCharacter
    ∧ (s.onScaledCharacter op clock).1.character = s.character
    ∧ (((s.onCharacter op clock).1.drawCharacters shaderProgram headVAO torsoVAO armVAO
          legVAO view projection).2.map DrawCall.model)[6]?
      = ((s.drawCharacters shaderProgram headVAO torsoVAO armVAO legVAO view
          projection).2.map DrawCall.model)[6]?
    ∧ (((s.onScaledCharacter op clock).1.drawCharacters shaderProgram headVAO torsoVAO
          armVAO legVAO view projection).2.map DrawCall.model)[0]?
      = ((s.drawCharacters shaderProgram headVAO torsoVAO armVAO legVAO view
          projection).2.map DrawCall.model)[0]? := by
  refine ⟨?_, ?_, rfl, rfl, ?_, ?_⟩
  · simp only [Character.drawCharacter, Character.drawPart, Character.torsoMatrix,
      Character.rootMatrix, List.map, List.head?, glm.rotate, normalize_axisY,
      glm.translate, glm.scale, mat4.identity, mat4.toMat3, mat3.smul, vec4.xyz, vec4.add,
      vec4.smul, vec3.smul, vec3.add, Option.some.injEq]
    ext <;> norm_num <;> ring
  · simp only [Character.drawCharacter, Character.drawPart, Character.torsoMatrix,
      Character.rootMatrix, List.map, List.head?, glm.rotate, normalize_axisY,
      glm.translate, glm.scale, mat4.identity, vec4.add,
      vec4.smul, vec3.smul, vec3.add, Option.some.injEq]
    ext <;> norm_num
  · simp only [Scene.onCharacter, Scene.drawCharacters, Character.drawCharacter,
      List.cons_append, List.nil_append, List.map, List.getElem?_cons_succ,
      List.getElem?_cons_zero]
  · simp only [Scene.onScaledCharacter, Scene.drawCharacters, Character.drawCharacter,
      List.cons_append, List.nil_append, List.map, List.getElem?_cons_succ,
      List.getElem?_cons_zero]

namespace Character

/-- C10. The root-pose accessors are direct: a getter after its setter returns the
vector that was set, whatever it is, and each setter leaves the other two root-pose
fields, `armSwing`, `legSwing`, `swingSpeed` and the five offsets as they were. -/
theorem accessors_direct (c : Character) (v : vec3) :
    ((c.setPosition v).getPosition = v
      ∧ (c.setRotation v).getRotation = v
      ∧ (c.setScale v).getScale = v)
    ∧ ((c.setPosition v).getRotation = c.getRotation
      ∧ (c.setPosition v).getScale = c.getScale
      ∧ (c.setRotation v).getPosition = c.getPosition
      ∧ (c.setRotation v).getScale = c.getScale
      ∧ (c.setScale v).getPosition = c.getPosition
      ∧ (c.setScale v).getRotation = c.getRotation)
    ∧ [c.setPosition v, c.setRotation v, c.setScale v].map
        (fun c' => (c'.armSwing, c'.legSwing, c'.swingSpeed, c'.headOffset,
          c'.leftArmOffset, c'.rightArmOffset, c'.leftLegOffset, c'.rightLegOffset))
      = List.replicate 3
          (c.armSwing, c.legSwing, c.swingSpeed, c.headOffset, c.leftArmOffset,
            c.rightArmOffset, c.leftLegOffset, c.rightLegOffset) :=
  ⟨⟨rfl, rfl, rfl⟩, ⟨rfl, rfl, rfl, rfl, rfl, rfl⟩, rfl⟩

end Character

namespace Character

/-- Whatever the state before, one `updateSwing` call leaves the two angles within
their amplitudes and keeps `swingSpeed`. -/
theorem updateSwing_swing_bounds (c : Character) (deltaTime : ℝ) (isMoving : Bool)
    (clock : Clock) :
    |(c.updateSwing deltaTime isMoving clock).1.armSwing| ≤ 45
    ∧ |(c.updateSwing deltaTime isMoving clock).1.legSwing| ≤ 30
    ∧ (c.updateSwing deltaTime isMoving clock).1.swingSpeed = c.swingSpeed := by
  cases isMoving
  · simp only [updateSwing]
    norm_num
  · simp only [updateSwing, glfwGetTime, if_true]
    refine ⟨?_, ?_, trivial⟩
    · rw [abs_mul]
      have h := Real.abs_sin_le_one (clock.readings 0 * c.swingSpeed)
      have h45 : |(45.0 : ℝ)| = 45 := by norm_num
      rw [h45]
      linarith [abs_nonneg (Real.sin (clock.readings 0 * c.swingSpeed))]
    · rw [abs_mul]
      have h := Real.abs_sin_le_one (clock.readings (0 + 1) * c.swingSpeed)
      have h30 : |(30.0 : ℝ)| = 30 := by norm_num
      rw [h30]
      linarith [abs_nonneg (Real.sin (clock.readings (0 + 1) * c.swingSpeed))]

/-- A run of `updateSwing` calls keeps the amplitude bounds and `swingSpeed`. -/
theorem updateSwings_swing_bounds (calls : List (ℝ × Bool × Clock)) (c : Character)
    (harm : |c.armSwing| ≤ 45) (hleg : |c.legSwing| ≤ 30) :
    |(c.updateSwings calls).armSwing| ≤ 45 ∧ |(c.updateSwings calls).legSwing| ≤ 30
    ∧ (c.updateSwings calls).swingSpeed = c.swingSpeed := by
  induction calls generalizing c with
  | nil => exact ⟨harm, hleg, rfl⟩
  | cons call rest ih =>
    have h := updateSwing_swing_bounds c call.1 call.2.1 call.2.2
    have h2 := ih (c.updateSwing call.1 call.2.1 call.2.2).1 h.1 h.2.1
    simp only [updateSwings]
    exact ⟨h2.1, h2.2.1, h2.2.2.trans h.2.2⟩

/-- C11. In the freshly constructed character and after every run of `updateSwing`
calls on it, with any `isMoving` flags, any `deltaTime` values and any timer
readings, `|armSwing| <= 45` and `|legSwing| <= 30`, and `swingSpeed` is still the
constructed 7. -/
theorem swing_amplitude_invariant (rootTransform : TransformParams)
    (calls : List (ℝ × Bool × Clock)) :
    (|(init rootTransform).armSwing| ≤ 45 ∧ |(init rootTransform).legSwing| ≤ 30)
    ∧ |((init rootTransform).updateSwings calls).armSwing| ≤ 45
    ∧ |((init rootTransform).updateSwings calls).legSwing| ≤ 30
    ∧ ((init rootTransform).updateSwings calls).swingSpeed = 7 := by
  have harm : |(init rootTransform).armSwing| ≤ 45 := by
    simp only [init]
    norm_num
  have hleg : |(init rootTransform).legSwing| ≤ 30 := by
    simp only [init]
    norm_num
  have h := updateSwings_swing_bounds calls (init rootTransform) harm hleg
  refine ⟨⟨harm, hleg⟩, h.1, h.2.1, ?_⟩
  rw [h.2.2]
  simp only [init]
  norm_num

/-- C12. `drawCharacter` does not read the stored root pose: with the arguments and
the other members fixed, the six `drawPart` calls are the same for every stored
`rootTransform`, so a `setPosition`, `setRotation` or `setScale` before the call
changes none of them; and the call leaves the character as it was. -/
theorem drawCharacter_ignores_stored_rootTransform (c : Character)
    (rootTransform : TransformParams) (v : vec3)
    (shaderProgram headVAO torsoVAO armVAO legVAO : ℕ) (view projection : mat4)
    (scale rotation position : vec3) :
    (drawCharacter { c with rootTransform := rootTransform } shaderProgram headVAO
        torsoVAO armVAO legVAO view projection scale rotation position).2
      = (drawCharacter c shaderProgram headVAO torsoVAO armVAO legVAO view projection
          scale rotation position).2
    ∧ (drawCharacter (c.setPosition v) shaderProgram headVAO torsoVAO armVAO legVAO view
        projection scale rotation position).2
      = (drawCharacter c shaderProgram headVAO torsoVAO armVAO legVAO view projection
          scale rotation position).2
    ∧ (drawCharacter (c.setRotation v) shaderProgram headVAO torsoVAO armVAO legVAO view
        projection scale rotation position).2
      = (drawCharacter c shaderProgram headVAO torsoVAO armVAO legVAO view projection
          scale rotation position).2
    ∧ (drawCharacter (c.setScale v) shaderProgram headVAO torsoVAO armVAO legVAO view
        projection scale rotation position).2
      = (drawCharacter c shaderProgram headVAO torsoVAO armVAO legVAO view projection
          scale rotation position).2
    ∧ (drawCharacter c shaderProgram headVAO torsoVAO armVAO legVAO view projection scale
        rotation position).1 = c := by
  refine ⟨?_, ?_, ?_, ?_, rfl⟩ <;>
  simp only [drawCharacter, setPosition, setRotation, setScale, headMatrix, leftArmMatrix,
    rightArmMatrix, leftLegMatrix, rightLegMatrix]

/-- C13. Rest pose: with both swing angles 0, for every root pose each limb transform
is `rootMatrix * Translate(limbOffset) * Scale(proportions)`, the proportions being
(0.2, 1.5, 0.2) for the arms and (0.3, 1.5, 0.3) for the legs; and after
`updateSwing(_, false)` the left and the right limb of a pair have the same linear
part, while the translation column of each limb is `rootMatrix * (limbOffset, 1)`. -/
theorem drawCharacter_rest_pose (c : Character) (deltaTime : ℝ) (clock : Clock)
    (shaderProgram headVAO torsoVAO armVAO legVAO : ℕ) (view projection : mat4)
    (scale rotation position : vec3) :
    ((drawCharacter { c with armSwing := 0, legSwing := 0 } shaderProgram headVAO
        torsoVAO armVAO legVAO view projection scale rotation position).2.drop 2).map
      DrawCall.model
      = [ ((rootMatrix scale rotation position).mul (Translate c.leftArmOffset)).mul
            (Scale ⟨0.2, 1.5, 0.2⟩),
          ((rootMatrix scale rotation position).mul (Translate c.rightArmOffset)).mul
            (Scale ⟨0.2, 1.5, 0.2⟩),
          ((rootMatrix scale rotation position).mul (Translate c.leftLegOffset)).mul
            (Scale ⟨0.3, 1.5, 0.3⟩),
          ((rootMatrix scale rotation position).mul (Translate c.rightLegOffset)).mul
            (Scale ⟨0.3, 1.5, 0.3⟩) ]
    ∧ (((drawCharacter (c.updateSwing deltaTime false clock).1 shaderProgram headVAO
          torsoVAO armVAO legVAO view projection scale rotation position).2.map
        (fun d => d.model.toMat3))[2]?
      = ((drawCharacter (c.updateSwing deltaTime false clock).1 shaderProgram headVAO
          torsoVAO armVAO legVAO view projection scale rotation position).2.map
        (fun d => d.model.toMat3))[3]?)
    ∧ (((drawCharacter (c.updateSwing deltaTime false clock).1 shaderProgram headVAO
          torsoVAO armVAO legVAO view projection scale rotation position).2.map
        (fun d => d.model.toMat3))[4]?
      = ((drawCharacter (c.updateSwing deltaTime false clock).1 shaderProgram headVAO
          torsoVAO armVAO legVAO view projection scale rotation position).2.map
        (fun d => d.model.toMat3))[5]?)
    ∧ ((drawCharacter (c.updateSwing deltaTime false clock).1 shaderProgram headVAO
          torsoVAO armVAO legVAO view projection scale rotation position).2.drop 2).map
        (fun d => d.model.c3)
      = [ (rootMatrix scale rotation position).mulVec (vec4.ofVec3 c.leftArmOffset 1),
          (rootMatrix scale rotation position).mulVec (vec4.ofVec3 c.rightArmOffset 1),
          (rootMatrix scale rotation position).mulVec (vec4.ofVec3 c.leftLegOffset 1),
          (rootMatrix scale rotation position).mulVec (vec4.ofVec3 c.rightLegOffset 1) ] := by
  have h0 : (0.0 : ℝ) = 0 := by norm_num
  have hr : radians 0 = 0 := by simp [radians]
  refine ⟨?_, ?_, ?_, ?_⟩
  · simp only [drawCharacter, drawPart, leftArmMatrix, rightArmMatrix, leftLegMatrix,
      rightLegMatrix, glm.rotate, normalize_axisX, neg_zero, hr, Real.cos_zero,
      Real.sin_zero, List.drop, List.map, List.cons.injEq, and_true]
    refine ⟨?_, ?_, ?_, ?_⟩ <;>
    · simp only [Translate, Scale, mat4.mul, mat4.mulVec, mat4.identity, glm.translate,
        glm.scale, vec4.add, vec4.smul, vec3.smul]
      ext <;> norm_num
  · simp only [updateSwing, h0, drawCharacter, drawPart, leftArmMatrix, rightArmMatrix,
      glm.rotate, normalize_axisX, neg_zero, hr, Real.cos_zero, Real.sin_zero, List.map,
      List.getElem?_cons_succ, List.getElem?_cons_zero, glm.translate, glm.scale,
      mat4.toMat3, Bool.false_eq_true, if_false]
  · simp only [updateSwing, h0, drawCharacter, drawPart, leftLegMatrix, rightLegMatrix,
      glm.rotate, normalize_axisX, neg_zero, hr, Real.cos_zero, Real.sin_zero, List.map,
      List.getElem?_cons_succ, List.getElem?_cons_zero, glm.translate, glm.scale,
      mat4.toMat3, Bool.false_eq_true, if_false]
  · simp only [updateSwing, h0, drawCharacter, drawPart, leftArmMatrix, rightArmMatrix,
      leftLegMatrix, rightLegMatrix, glm.rotate, normalize_axisX, neg_zero, hr,
      Real.cos_zero, Real.sin_zero, List.drop, List.map, List.cons.injEq, and_true,
      Bool.false_eq_true, if_false]
    refine ⟨?_, ?_, ?_, ?_⟩ <;>
    · simp only [mat4.mulVec, glm.translate, glm.scale, vec4.add, vec4.smul, vec3.smul,
        vec4.ofVec3]
      ext <;> norm_num

end Character

/-- The function `glm::clamp` lands between its bounds when they are in order. -/
theorem glm.clamp_bounds (x minVal maxVal : ℝ) (h : minVal ≤ maxVal) :
    minVal ≤ glm.clamp x minVal maxVal ∧ glm.clamp x minVal maxVal ≤ maxVal := by
  unfold glm.clamp glm.min glm.max
  split_ifs <;> constructor <;> linarith

/-- The method `updateSwing` does not touch `rootTransform`. -/
theorem Character.updateSwing_rootTransform (c : Character) (deltaTime : ℝ)
    (isMoving : Bool) (clock : Clock) :
    (c.updateSwing deltaTime isMoving clock).1.rootTransform = c.rootTransform := by
  cases isMoving <;> rfl

/-- C14. After `processInput`, for every prior world and every combination of
pressed keys, the stored position of `character` has `-9 <= x <= 9` and
`-9 <= z <= 9` and its prior y component, `rotation.x` and `rotation.z` are the
prior ones, and the `isMoving` argument of the `updateSwing` call is true exactly
when one of W, S, A, D is pressed; with W and S both pressed and A and D not, the
flag is true while the position is the prior one, clamped. -/
theorem processInput_bounds_and_moving_flag (w : World) (keys : Keys) :
    (-9 ≤ (processInput w keys).1.scene.character.getPosition.x
      ∧ (processInput w keys).1.scene.character.getPosition.x ≤ 9)
    ∧ (-9 ≤ (processInput w keys).1.scene.character.getPosition.z
      ∧ (processInput w keys).1.scene.character.getPosition.z ≤ 9)
    ∧ (processInput w keys).1.scene.character.getPosition.y
        = w.scene.character.getPosition.y
    ∧ (processInput w keys).1.scene.character.getRotation.x
        = w.scene.character.getRotation.x
    ∧ (processInput w keys).1.scene.character.getRotation.z
        = w.scene.character.getRotation.z
    ∧ (processInput w keys).2.2 = (keys.KEY_W || keys.KEY_S || keys.KEY_A || keys.KEY_D)
    ∧ ((processInput w ⟨keys.KEY_ESCAPE, true, true, false, false, keys.KEY_LEFT,
            keys.KEY_RIGHT⟩).2.2 = true
      ∧ (processInput w ⟨keys.KEY_ESCAPE, true, true, false, false, keys.KEY_LEFT,
            keys.KEY_RIGHT⟩).1.scene.character.getPosition
          = ⟨glm.clamp w.scene.character.getPosition.x (-9) 9,
             w.scene.character.getPosition.y,
             glm.clamp w.scene.character.getPosition.z (-9) 9⟩) := by
  have h9 : (9.0 : ℝ) = 9 := by norm_num
  have h0 : (0.0 : ℝ) = 0 := by norm_num
  have hle : (-9 : ℝ) ≤ 9 := by norm_num
  obtain ⟨kEsc, kW, kS, kA, kD, kL, kR⟩ := keys
  refine ⟨?_, ?_, ?_, ?_, ?_, ?_, ?_, ?_⟩
  · simp only [processInput, Character.getPosition, Character.updateSwing_rootTransform,
      Character.setPosition, Character.setRotation, h9]
    exact glm.clamp_bounds _ _ _ hle
  · simp only [processInput, Character.getPosition, Character.updateSwing_rootTransform,
      Character.setPosition, Character.setRotation, h9]
    exact glm.clamp_bounds _ _ _ hle
  · simp only [processInput, Character.getPosition, Character.updateSwing_rootTransform,
      Character.setPosition, Character.setRotation, h0]
    cases kW <;> cases kS <;> cases kA <;> cases kD <;>
      simp [vec3.add, vec3.sub, vec3.scalarMul]
  · simp only [processInput, Character.getRotation, Character.updateSwing_rootTransform,
      Character.setPosition, Character.setRotation]
    cases kL <;> cases kR <;> simp
  · simp only [processInput, Character.getRotation, Character.updateSwing_rootTransform,
      Character.setPosition, Character.setRotation]
    cases kL <;> cases kR <;> simp
  · simp only [processInput]
    cases kW <;> cases kS <;> cases kA <;> cases kD <;> simp
  · simp [processInput]
  · simp only [processInput, Character.getPosition, Character.updateSwing_rootTransform,
      Character.setPosition, Character.setRotation, h0, h9, if_true, Bool.false_eq_true,
      if_false, vec3.add, vec3.sub, vec3.scalarMul]
    ext <;> simp

end
